import Mathlib

/-!
Shallow embedding of `src/frame-extractor.py` (video first-frame extractor).

The Python program depends on two external capabilities: the `cv2` video
library (open a capture, read a frame, write a PNG) and the filesystem
(`os.path.exists` / `os.path.isdir` / `os.access` / `os.listdir`).  Both are
modelled as oracle inputs: a `CvEnv` records the outcome of each `cv2` call
on one path (a value returned, or a Python exception raised), an `FsEnv`
records the three validation checks, and a directory is a list of named
entries.  Pure Python primitives used by the script (`os.path.splitext`,
`os.path.join`, `str.lower`, `str.endswith` — POSIX path semantics, ASCII
case folding) are translated to executable Lean functions on `List Char`.
Python control flow — in particular the `try/except/finally` block of
`extract_first_frame`, including the path where the `finally` clause itself
raises `UnboundLocalError` because `video_capture` was never bound — is
translated branch by branch.
-/

/-- A Python exception value, as far as the embedding needs to tell them
apart: an error raised by a `cv2` call, or an `UnboundLocalError`/`NameError`
raised when an unbound local variable is referenced (carrying the variable
name). -/
inductive PyErr where
  | cvError (msg : String)
  | nameError (var : String)
  deriving DecidableEq

/-- An in-memory decoded frame.  Its contents never matter to the script's
control flow, so it is an opaque numeric token. -/
abbrev Frame := Nat

/-- Oracle for the behaviour of the `cv2` library on one video path.
Each field is the outcome of the corresponding call: `Except.ok` is the
value the call returns, `Except.error` means the call raises that Python
exception.
`openResult` models `cv2.VideoCapture(path)` followed by `isOpened()`:
`.ok b` means the constructor returned a capture object whose `isOpened()`
is `b`; `.error e` means the constructor itself raised.
`readResult` models `capture.read()` returning the `(success, frame)` pair.
`imwriteResult` models `cv2.imwrite(output_path, frame)`, whose returned
`Bool` is `false` when the image could not be written. -/
structure CvEnv where
  openResult : Except PyErr Bool
  readResult : Except PyErr (Bool × Frame)
  imwriteResult : Except PyErr Bool

/-- Everything observable about one call of `extract_first_frame`
(src/frame-extractor.py lines 92-131): the value it returns — or the
exception that propagates out of it —, whether the `cv2.VideoCapture`
constructor returned a capture object (`acquired`), whether `release()` was
called on that object in the `finally` clause (`released`), and the path
passed to `cv2.imwrite` when that call was made (`attemptedWrite`). -/
structure ExtractTrace where
  result : Except PyErr (Option String)
  acquired : Bool
  released : Bool
  attemptedWrite : Option String

/-- Python `str.rfind` for a single character over the characters of a
string: the largest index holding `c`, or `-1` when `c` does not occur. -/
def rfindList (c : Char) : List Char → Int
  | [] => -1
  | x :: xs =>
      let r := rfindList c xs
      if 0 ≤ r then r + 1
      else if x = c then 0 else -1

/-- The scan of CPython's `genericpath._splitext` between the last path
separator and the last dot: does some position strictly between `sepIndex`
and `dotIndex` hold a character other than a dot?  (When every such
character is a dot the basename is all leading dots, e.g. `.bashrc`, and no
extension is split off.) -/
def hasNonDotBetween (l : List Char) (sepIndex dotIndex : Int) : Bool :=
  (List.range l.length).any fun i =>
    decide (sepIndex < (i : Int)) && decide ((i : Int) < dotIndex) &&
      decide (l.get? i ≠ some '.')

/-- Python `os.path.splitext` with POSIX separators, translated from
CPython's `genericpath._splitext`: split at the last `.` that comes after
the last `/`, unless the basename consists only of leading dots up to that
point. -/
def splitext (p : String) : String × String :=
  let l := p.data
  let sepIndex := rfindList '/' l
  let dotIndex := rfindList '.' l
  if decide (sepIndex < dotIndex) && hasNonDotBetween l sepIndex dotIndex then
    (String.mk (l.take dotIndex.toNat), String.mk (l.drop dotIndex.toNat))
  else (p, "")

/-- Does the string begin with a POSIX path separator? -/
def startsWithSlash (s : String) : Bool :=
  match s.data with
  | '/' :: _ => true
  | _ => false

/-- Does the string end with a POSIX path separator? -/
def endsWithSlash (s : String) : Bool :=
  match s.data.getLast? with
  | some '/' => true
  | _ => false

/-- Python `os.path.join` for a directory and an entry name, POSIX rules
(`posixpath.join` for two arguments). -/
def joinPath (directory name : String) : String :=
  if startsWithSlash name then name
  else if directory.data.isEmpty || endsWithSlash directory then directory ++ name
  else directory ++ "/" ++ name

/-- Python `str.lower` on one character, ASCII range (the extension
constants the script compares against are all ASCII). -/
def pyLowerChar (c : Char) : Char :=
  if 'A' ≤ c ∧ c ≤ 'Z' then Char.ofNat (c.toNat + 32) else c

/-- Python `str.lower` (ASCII case folding). -/
def pyLower (s : String) : String := String.mk (s.data.map pyLowerChar)

/-- Python `str.endswith` for a single candidate string. -/
def pyEndsWith (s sfx : String) : Bool := sfx.data.isSuffixOf s.data

/-- The recognized video extensions
(src/frame-extractor.py line 83: `video_extensions`). -/
def video_extensions : List String :=
  [".mp4", ".avi", ".mov", ".mkv", ".wmv", ".flv"]

/-- Does a name pass the script's filter `file.lower().endswith(video_extensions)`
(src/frame-extractor.py line 87)?  Python's tuple form of `endswith` is the
disjunction over the tuple's members. -/
def matchesVideoExt (file : String) : Bool :=
  video_extensions.any fun ext => pyEndsWith (pyLower file) ext

/-- One entry of a directory as the filesystem holds it: its name, and
whether it is a regular file (as opposed to a subdirectory or other
non-file entry).  `os.listdir` reports names of entries of every kind. -/
structure DirEntry where
  name : String
  isFile : Bool
  deriving DecidableEq

/-- Python `os.listdir(directory)`: the names of the immediate entries of
the directory, of every kind, in filesystem order.  Non-recursive. -/
def listdir (entries : List DirEntry) : List String :=
  entries.map fun e => e.name

/-- `get_video_files` (src/frame-extractor.py lines 73-90): keep the listed
names whose lowercased form ends with a recognized video extension, in
listing order, each joined onto the directory with `os.path.join`. -/
def get_video_files (directory : String) (listing : List String) : List String :=
  (listing.filter matchesVideoExt).map fun file => joinPath directory file

/-- The output path computed at src/frame-extractor.py lines 117-119:
`base_name = os.path.splitext(video_path)[0]` then
`output_path = f"{base_name}_first_frame.png"`. -/
def output_path (video_path : String) : String :=
  (splitext video_path).1 ++ "_first_frame.png"

/-- `extract_first_frame` (src/frame-extractor.py lines 92-131), translated
branch by branch from the `try/except/finally` block:

* `cv2.VideoCapture(video_path)` raises: the local `video_capture` is never
  bound; the `except` clause catches the exception, logs, and schedules
  `return None`, but the `finally` clause then evaluates the unbound name
  `video_capture`, raising `UnboundLocalError`, which replaces the pending
  return and propagates out of the function;
* `isOpened()` false, or `read()` returns `success = False`: log, early
  `return None`; the `finally` clause releases the capture;
* `read()` or `imwrite` raises: the `except` clause logs and returns
  `None`; the `finally` clause releases the capture;
* otherwise `cv2.imwrite(output_path, frame)` is called, its returned
  `Bool` is discarded, and `output_path` is returned; the `finally` clause
  releases the capture. -/
def extract_first_frame (env : CvEnv) (video_path : String) : ExtractTrace :=
  match env.openResult with
  | .error _ =>
      { result := .error (.nameError "video_capture"),
        acquired := false, released := false, attemptedWrite := none }
  | .ok opened =>
      if !opened then
        { result := .ok none, acquired := true, released := true,
          attemptedWrite := none }
      else
        match env.readResult with
        | .error _ =>
            { result := .ok none, acquired := true, released := true,
              attemptedWrite := none }
        | .ok (success, _) =>
            if !success then
              { result := .ok none, acquired := true, released := true,
                attemptedWrite := none }
            else
              match env.imwriteResult with
              | .error _ =>
                  { result := .ok none, acquired := true, released := true,
                    attemptedWrite := some (output_path video_path) }
              | .ok _ =>
                  { result := .ok (some (output_path video_path)),
                    acquired := true, released := true,
                    attemptedWrite := some (output_path video_path) }

/-- Results of the three checks `validate_directory` performs on the target
directory: `os.path.exists`, `os.path.isdir`,
`os.access(directory, os.R_OK | os.W_OK)`. -/
structure FsEnv where
  pathExists : Bool
  isDir : Bool
  accessRW : Bool
  deriving DecidableEq

/-- `validate_directory` (src/frame-extractor.py lines 52-71): true exactly
when the path exists, is a directory, and is readable and writable. -/
def validate_directory (fs : FsEnv) : Bool :=
  fs.pathExists && fs.isDir && fs.accessRW

/-- An externally observable side effect of one run beyond logging:
attempting to open a video file for decoding, writing a PNG, or invoking
`pip install` for a package (a subprocess that reaches the network and
installs into the Python environment, persisting across runs). -/
inductive Effect where
  | openVideo (path : String)
  | writePng (path : String)
  | pipInstall (pkg : String)
  deriving DecidableEq

/-- The `required_packages` list of `check_dependencies`
(src/frame-extractor.py line 43). -/
def required_packages : List String := ["opencv-python", "tqdm"]

/-- The module name `check_dependencies` tries to import for a package:
`package.replace('-', '_')` (src/frame-extractor.py line 47).  Note that
for `opencv-python` this yields `opencv_python`, which is not the name the
package is imported under (`cv2`). -/
def moduleName (pkg : String) : String :=
  String.mk (pkg.data.map fun c => if c = '-' then '_' else c)

/-- `check_dependencies` (src/frame-extractor.py lines 39-50): for each
required package whose computed module name cannot be imported, run
`pip install` for it.  `importable` is the oracle for `__import__`: the
module names importable in the current environment.  The model assumes the
`pip` subprocess itself succeeds. -/
def check_dependencies (importable : List String) : List Effect :=
  (required_packages.filter fun p => !(importable.contains (moduleName p))).map
    fun p => Effect.pipInstall p

/-- Python truthiness of an `Optional[str]`, as tested by
`if extract_first_frame(video_file):` (src/frame-extractor.py line 167):
`None` and the empty string are falsy, every other string is truthy. -/
def pyTruthy : Option String → Bool
  | none => false
  | some s => !s.data.isEmpty

/-- Observable outcome of the `for video_file in tqdm(video_files)` loop of
`main` (src/frame-extractor.py lines 166-170): the final
`(successful, failed)` counters — or the exception that aborted the loop —,
the paths passed to `extract_first_frame` in order, and the side effects
performed. -/
structure LoopOut where
  res : Except PyErr (Nat × Nat)
  invoked : List String
  effects : List Effect

/-- The processing loop of `main` (src/frame-extractor.py lines 163-170):
call `extract_first_frame` on each file in order, incrementing `successful`
when the returned value is truthy and `failed` otherwise.  If a call lets
an exception escape, the loop — and the whole program — aborts there: the
remaining files are not visited.  Every call contributes an `openVideo`
effect (the `cv2.VideoCapture` attempt on that path) and, when `imwrite`
was called, a `writePng` effect. -/
def processLoop (cvOf : String → CvEnv) : List String → LoopOut
  | [] => { res := .ok (0, 0), invoked := [], effects := [] }
  | f :: rest =>
      let t := extract_first_frame (cvOf f) f
      let effs :=
        match t.attemptedWrite with
        | some o => [Effect.openVideo f, Effect.writePng o]
        | none => [Effect.openVideo f]
      match t.result with
      | .error e => { res := .error e, invoked := [f], effects := effs }
      | .ok r =>
          let tl := processLoop cvOf rest
          let res2 :=
            match tl.res with
            | .ok (s, fl) =>
                if pyTruthy r then Except.ok (s + 1, fl)
                else Except.ok (s, fl + 1)
            | .error e => Except.error e
          { res := res2, invoked := f :: tl.invoked, effects := effs ++ tl.effects }

/-- One run's external inputs: the importable-modules oracle for
`check_dependencies`, the target directory string (from `sys.argv[1]` or
the interactive prompt), the outcomes of the three validation checks on it,
its entries, and the `cv2` oracle for each path. -/
structure RunEnv where
  importable : List String
  directory : String
  fs : FsEnv
  entries : List DirEntry
  cvOf : String → CvEnv

/-- Observable outcome of one run of `main`: the process exit status, the
side effects in order, the paths handed to `extract_first_frame` in order,
and the `(successful, failed)` counters of the final summary when one was
printed. -/
structure RunResult where
  exitCode : Nat
  effects : List Effect
  invoked : List String
  counts : Option (Nat × Nat)

/-- `main` (src/frame-extractor.py lines 133-178) plus the process
boundary: run `check_dependencies`; `sys.exit(1)` when
`validate_directory` fails; `sys.exit(0)` when `get_video_files` finds
nothing; otherwise run the processing loop and print the summary, the
process then ending with status 0.  When an exception escapes
`extract_first_frame`, nothing in `main` catches it, so the interpreter
aborts the process with a traceback and exit status 1 — with no summary,
and with the remaining files unprocessed.  (Named `mainRun` because Lean
reserves `main` for an executable entry point of a different type.) -/
def mainRun (env : RunEnv) : RunResult :=
  let depEffects := check_dependencies env.importable
  if validate_directory env.fs = false then
    { exitCode := 1, effects := depEffects, invoked := [], counts := none }
  else
    let video_files := get_video_files env.directory (listdir env.entries)
    if video_files.isEmpty then
      { exitCode := 0, effects := depEffects, invoked := [], counts := none }
    else
      let lo := processLoop env.cvOf video_files
      match lo.res with
      | .ok (s, f) =>
          { exitCode := 0, effects := depEffects ++ lo.effects,
            invoked := lo.invoked, counts := some (s, f) }
      | .error _ =>
          { exitCode := 1, effects := depEffects ++ lo.effects,
            invoked := lo.invoked, counts := none }

/-- The leading characters of a path up to and including its last `/`
(empty when the path has no `/`): the directory part a POSIX path lies in. -/
def dirnameChars (p : String) : List Char :=
  p.data.take (rfindList '/' p.data + 1).toNat

/-- Is this effect a `pip install` invocation?  The spec sentence "No
network, no environment variables, no persisted state between runs" says a
run's effects satisfy `effects.any isPipInstallEffect = false`. -/
def isPipInstallEffect : Effect → Bool
  | .pipInstall _ => true
  | _ => false

/-- A `cv2` oracle for a healthy video on a writable disk: the capture
opens, the first frame reads, the PNG write succeeds. -/
def capOpens : CvEnv :=
  { openResult := .ok true, readResult := .ok (true, 0), imwriteResult := .ok true }

/-- A `cv2` oracle for a file whose `cv2.VideoCapture` constructor raises
an exception rather than returning a capture object. -/
def capRaisesOnOpen : CvEnv :=
  { openResult := .error (.cvError "boom"), readResult := .ok (false, 0),
    imwriteResult := .ok true }

/-- A `cv2` oracle for a readable video whose PNG cannot be written:
`cv2.imwrite` reports the failure by returning `False`. -/
def capWriteFails : CvEnv :=
  { openResult := .ok true, readResult := .ok (true, 0), imwriteResult := .ok false }

/-- A target directory that passes all three validation checks. -/
def fsValid : FsEnv := { pathExists := true, isDir := true, accessRW := true }

/-- A run over `/videos` containing `a.mp4` and `b.mp4`, on a machine with
both real modules (`cv2`, `tqdm`) installed, where the `cv2.VideoCapture`
constructor raises on `a.mp4` and everything succeeds on `b.mp4`. -/
def envRaise : RunEnv :=
  { importable := ["cv2", "tqdm"],
    directory := "/videos",
    fs := fsValid,
    entries := [{ name := "a.mp4", isFile := true }, { name := "b.mp4", isFile := true }],
    cvOf := fun p => if p = "/videos/a.mp4" then capRaisesOnOpen else capOpens }

/-- A run over `/videos` containing one healthy video `a.mp4`, on a machine
with both real modules (`cv2`, `tqdm`) installed. -/
def envOk : RunEnv :=
  { importable := ["cv2", "tqdm"],
    directory := "/videos",
    fs := fsValid,
    entries := [{ name := "a.mp4", isFile := true }],
    cvOf := fun _ => capOpens }

/-! Helper lemmas about the embedded Python primitives. -/

theorem rfindList_neg_one_le (c : Char) (l : List Char) : -1 ≤ rfindList c l := by
  cases l with
  | nil => simp [rfindList]
  | cons x xs =>
      simp only [rfindList]
      split
      · omega
      · split <;> omega

theorem rfindList_lt_length (c : Char) (l : List Char) :
    rfindList c l < (l.length : Int) := by
  induction l with
  | nil => simp [rfindList]
  | cons x xs ih =>
      simp only [rfindList, List.length_cons]
      split
      · push_cast
        omega
      · split <;> push_cast <;> omega

theorem rfindList_append (c : Char) (l1 l2 : List Char) :
    rfindList c (l1 ++ l2) =
      if 0 ≤ rfindList c l2 then (l1.length : Int) + rfindList c l2
      else rfindList c l1 := by
  induction l1 with
  | nil =>
      have hb := rfindList_neg_one_le c l2
      simp only [List.nil_append, List.length_nil]
      rw [show rfindList c ([] : List Char) = -1 from rfl]
      split <;> omega
  | cons x xs ih =>
      simp only [List.cons_append, rfindList, List.append_eq, List.length_cons]
      rw [ih]
      by_cases h2 : 0 ≤ rfindList c l2
      · simp only [if_pos h2]
        rw [if_pos (by omega : (0 : Int) ≤ (xs.length : Int) + rfindList c l2)]
        push_cast
        omega
      · simp only [if_neg h2]

theorem rfindList_take (c : Char) (l : List Char) (n : Nat)
    (h : rfindList c l < (n : Int)) : rfindList c (l.take n) = rfindList c l := by
  have hsplit := rfindList_append c (l.take n) (l.drop n)
  rw [List.take_append_drop] at hsplit
  have hdrop : ¬ (0 ≤ rfindList c (l.drop n)) := by
    intro h0
    rw [if_pos h0] at hsplit
    by_cases hn : l.length ≤ n
    · rw [List.drop_eq_nil_of_le hn] at h0
      simp [rfindList] at h0
    · have hlen : (l.take n).length = n := by
        rw [List.length_take]
        omega
      rw [hlen] at hsplit
      omega
  rw [if_neg hdrop] at hsplit
  omega

theorem dirnameChars_append_no_slash (p s : String)
    (hs : rfindList '/' s.data = -1) :
    dirnameChars (p ++ s) = dirnameChars p := by
  unfold dirnameChars
  have hneg : ¬ (0 ≤ rfindList '/' s.data) := by
    rw [hs]
    decide
  rw [String.data_append, rfindList_append, if_neg hneg]
  have hm : (rfindList '/' p.data + 1).toNat ≤ p.data.length := by
    have := rfindList_lt_length '/' p.data
    omega
  rw [List.take_append_of_le_length hm]

theorem dirnameChars_splitext_fst (p : String) :
    dirnameChars (splitext p).1 = dirnameChars p := by
  simp only [splitext]
  split
  · rename_i hcond
    have hsd : rfindList '/' p.data < rfindList '.' p.data := by
      simp only [Bool.and_eq_true, decide_eq_true_eq] at hcond
      exact hcond.1
    have h0 : 0 ≤ rfindList '.' p.data := by
      have := rfindList_neg_one_le '/' p.data
      omega
    simp only [dirnameChars]
    have hlt : rfindList '/' p.data < ((rfindList '.' p.data).toNat : Int) := by
      omega
    rw [rfindList_take '/' p.data (rfindList '.' p.data).toNat hlt]
    rw [List.take_take]
    have hmin : (rfindList '/' p.data + 1).toNat ⊓ (rfindList '.' p.data).toNat
        = (rfindList '/' p.data + 1).toNat := by
      have := rfindList_neg_one_le '/' p.data
      omega
    rw [hmin]
  · rfl

theorem dirnameChars_output_path (p : String) :
    dirnameChars (output_path p) = dirnameChars p := by
  unfold output_path
  rw [dirnameChars_append_no_slash _ _ (by decide)]
  exact dirnameChars_splitext_fst p

theorem attemptedWrite_cases (env : CvEnv) (p : String) :
    (extract_first_frame env p).attemptedWrite = none ∨
      (extract_first_frame env p).attemptedWrite = some (output_path p) := by
  obtain ⟨o, r, w⟩ := env
  simp only [extract_first_frame]
  cases o with
  | error e => simp
  | ok b =>
      cases b
      · simp
      · cases r with
        | error e => simp
        | ok pr =>
            obtain ⟨su, fr⟩ := pr
            cases su
            · simp
            · cases w <;> simp

theorem processLoop_ok_sum (cvOf : String → CvEnv) :
    ∀ (files : List String) (s f : Nat),
      (processLoop cvOf files).res = Except.ok (s, f) → s + f = files.length := by
  intro files
  induction files with
  | nil =>
      intro s f h
      simp only [processLoop] at h
      injection h with h'
      injection h' with h1 h2
      simp only [List.length_nil]
      omega
  | cons hd tl ih =>
      intro s f h
      simp only [processLoop] at h
      split at h
      · simp at h
      · split at h
        · rename_i s' fl heq
          split at h
          · injection h with h'
            injection h' with h1 h2
            have := ih s' fl heq
            simp only [List.length_cons]
            omega
          · injection h with h'
            injection h' with h1 h2
            have := ih s' fl heq
            simp only [List.length_cons]
            omega
        · simp at h

theorem check_dependencies_effects (importable : List String) (e : Effect)
    (he : e ∈ check_dependencies importable) :
    ∃ pkg, pkg ∈ required_packages ∧ e = Effect.pipInstall pkg := by
  simp only [check_dependencies] at he
  obtain ⟨pkg, hpkg, rfl⟩ := List.mem_map.mp he
  exact ⟨pkg, (List.mem_filter.mp hpkg).1, rfl⟩

theorem processLoop_effects (cvOf : String → CvEnv) :
    ∀ (files : List String) (e : Effect), e ∈ (processLoop cvOf files).effects →
      ∃ p, p ∈ files ∧ (e = Effect.openVideo p ∨ e = Effect.writePng (output_path p)) := by
  intro files
  induction files with
  | nil =>
      intro e he
      simp [processLoop] at he
  | cons hd tl ih =>
      intro e he
      simp only [processLoop] at he
      rcases attemptedWrite_cases (cvOf hd) hd with haw | haw <;> rw [haw] at he
      · cases hres : (extract_first_frame (cvOf hd) hd).result with
        | error err =>
            rw [hres] at he
            simp only [List.mem_singleton] at he
            exact ⟨hd, List.mem_cons_self hd tl, Or.inl he⟩
        | ok r =>
            rw [hres] at he
            rcases List.mem_append.mp he with h1 | h2
            · simp only [List.mem_singleton] at h1
              exact ⟨hd, List.mem_cons_self hd tl, Or.inl h1⟩
            · obtain ⟨p, hp, hor⟩ := ih e h2
              exact ⟨p, List.mem_cons_of_mem hd hp, hor⟩
      · cases hres : (extract_first_frame (cvOf hd) hd).result with
        | error err =>
            rw [hres] at he
            rcases List.mem_cons.mp he with h1 | h1
            · exact ⟨hd, List.mem_cons_self hd tl, Or.inl h1⟩
            · simp only [List.mem_singleton] at h1
              exact ⟨hd, List.mem_cons_self hd tl, Or.inr h1⟩
        | ok r =>
            rw [hres] at he
            rcases List.mem_append.mp he with h1 | h2
            · rcases List.mem_cons.mp h1 with h3 | h3
              · exact ⟨hd, List.mem_cons_self hd tl, Or.inl h3⟩
              · simp only [List.mem_singleton] at h3
                exact ⟨hd, List.mem_cons_self hd tl, Or.inr h3⟩
            · obtain ⟨p, hp, hor⟩ := ih e h2
              exact ⟨p, List.mem_cons_of_mem hd hp, hor⟩

/-! Theorems settling the claims of the specification. -/

/-- C1.  The claim says: if encoding the decoded first frame to PNG at the
output path fails, `extract_first_frame` records the file as a failure
(returns no output path).  The code does not behave this way: `cv2.imwrite`
reports an unwritable output (unwritable directory, disk full) by returning
`False`, and src/frame-extractor.py line 122 discards that return value, so
the function still returns the output path and the file is counted as a
success.  This theorem evaluates the code on such a file: the capture opens,
the first frame reads, `imwrite` returns `False`, and the function
nevertheless returns the output path. -/
theorem encode_failure_reported_as_success :
    (extract_first_frame capWriteFails "/videos/clip.mp4").result
      = Except.ok (some "/videos/clip_first_frame.png") := rfl

/-- C2.  Whenever a run reaches the final summary, the successful count
plus the failed count equals the number of discovered candidates: each
iteration of the loop at src/frame-extractor.py lines 166-170 increments
exactly one of the two counters.  (With zero candidates the program exits
before the loop and no summary is printed; the underlying loop invariant
`processLoop_ok_sum` covers the empty list with counts 0 + 0 = 0.) -/
theorem extraction_counts_sum_to_total (env : RunEnv) (s f : Nat)
    (h : (mainRun env).counts = some (s, f)) :
    s + f = (get_video_files env.directory (listdir env.entries)).length := by
  simp only [mainRun] at h
  split at h
  · simp at h
  · split at h
    · simp at h
    · split at h
      · rename_i s' f' heq
        simp only [Option.some.injEq, Prod.mk.injEq] at h
        obtain ⟨h1, h2⟩ := h
        subst h1
        subst h2
        exact processLoop_ok_sum env.cvOf _ _ _ heq
      · simp at h

/-- Witness for C2: a run over one healthy video reports counts (1, 0),
and 1 + 0 equals the number of discovered candidates. -/
theorem extraction_counts_sum_to_total_witness :
    (mainRun envOk).counts = some (1, 0) ∧
      1 + 0 = (get_video_files envOk.directory (listdir envOk.entries)).length :=
  ⟨rfl, extraction_counts_sum_to_total envOk 1 0 rfl⟩

/-- C3.  Whenever the `cv2.VideoCapture` constructor returns a capture
object — whether or not it opened, and whatever `read()` and `imwrite`
subsequently do, including raising an exception — the `finally` clause at
src/frame-extractor.py lines 130-131 calls `release()` on it before
`extract_first_frame` returns, on every exit path.  (When the constructor
itself raises, no capture object ever exists, so there is no acquired
resource to release; `acquired = true` records that a session was
created.) -/
theorem capture_released_on_every_exit (env : CvEnv) (p : String) (b : Bool)
    (h : env.openResult = Except.ok b) :
    (extract_first_frame env p).acquired = true ∧
      (extract_first_frame env p).released = true := by
  obtain ⟨o, r, w⟩ := env
  simp only at h
  subst h
  simp only [extract_first_frame]
  cases b
  · simp
  · cases r with
    | error e => simp
    | ok pr =>
        obtain ⟨su, fr⟩ := pr
        cases su
        · simp
        · cases w <;> simp

/-- Witness for C3: on a file whose PNG write fails, the capture was
acquired and released. -/
theorem capture_released_on_every_exit_witness :
    capWriteFails.openResult = Except.ok true ∧
      (extract_first_frame capWriteFails "/videos/clip.mp4").acquired = true ∧
      (extract_first_frame capWriteFails "/videos/clip.mp4").released = true :=
  ⟨rfl, capture_released_on_every_exit capWriteFails "/videos/clip.mp4" true rfl⟩

/-- C4.  The claim says no per-file error ever propagates out of
`extract_first_frame`.  The code has one path where an error does escape:
when `cv2.VideoCapture(video_path)` itself raises, the local
`video_capture` is never bound; the `except` clause catches and logs the
original error, but the `finally` clause (src/frame-extractor.py line 131)
then evaluates the unbound name `video_capture` and raises
`UnboundLocalError`, which replaces the pending `return None` and
propagates to the caller, aborting the batch.  This theorem evaluates the
code on such a file. -/
theorem open_exception_escapes_extract :
    (extract_first_frame capRaisesOnOpen "/videos/a.mp4").result
      = Except.error (PyErr.nameError "video_capture") := rfl

/-- C5.  The claim says the process exits non-zero exactly when directory
validation fails.  Evaluating the code on a run whose directory passes all
three validation checks but which contains a file whose `cv2.VideoCapture`
constructor raises: the `UnboundLocalError` escaping `extract_first_frame`
is caught nowhere in `main`, so the interpreter aborts the process with
exit status 1 even though validation succeeded. -/
theorem nonzero_exit_without_validation_failure :
    validate_directory envRaise.fs = true ∧ (mainRun envRaise).exitCode = 1 :=
  ⟨rfl, rfl⟩

/-- C6.  Every path returned by `get_video_files` comes from a name in the
immediate directory listing whose lowercased form ends with one of the six
recognized video extensions, joined onto the directory itself
(src/frame-extractor.py lines 83-90).  Since the listing holds only the
immediate entries of the directory (`os.listdir` is non-recursive), no
entry of a subdirectory is ever returned. -/
theorem discovery_only_suffix_matches_from_listing (directory : String)
    (listing : List String) (p : String)
    (hp : p ∈ get_video_files directory listing) :
    ∃ name, name ∈ listing ∧ matchesVideoExt name = true ∧
      p = joinPath directory name := by
  simp only [get_video_files] at hp
  obtain ⟨name, hn, rfl⟩ := List.mem_map.mp hp
  obtain ⟨h1, h2⟩ := List.mem_filter.mp hn
  exact ⟨name, h1, h2, rfl⟩

/-- Witness for C6: in a listing holding `A.MP4` and `b.txt`, the returned
path `/videos/A.MP4` comes from the matching name `A.MP4`. -/
theorem discovery_only_suffix_matches_from_listing_witness :
    "/videos/A.MP4" ∈ get_video_files "/videos" ["A.MP4", "b.txt"] ∧
      ∃ name, name ∈ ["A.MP4", "b.txt"] ∧ matchesVideoExt name = true ∧
        "/videos/A.MP4" = joinPath "/videos" name :=
  ⟨by decide,
    discovery_only_suffix_matches_from_listing "/videos" ["A.MP4", "b.txt"]
      "/videos/A.MP4" (by decide)⟩

/-- C7.  For every source path whose capture opens and whose first frame
reads, the write is attempted at exactly `output_path`, which is the source
with its extension stripped by `os.path.splitext` plus the fixed suffix
`_first_frame.png` (src/frame-extractor.py lines 117-122), and which lies
in the same directory as the source (identical leading path up to the last
`/`).  The embedding of `extract_first_frame` takes no notion of existing
files: the write at this path is attempted unconditionally — the code has
no collision detection, so a prior file of that exact name is silently
overwritten. -/
theorem output_path_same_directory_fixed_suffix (env : CvEnv) (p : String)
    (fr : Frame) (ho : env.openResult = Except.ok true)
    (hr : env.readResult = Except.ok (true, fr)) :
    (extract_first_frame env p).attemptedWrite = some (output_path p) ∧
      output_path p = (splitext p).1 ++ "_first_frame.png" ∧
      dirnameChars (output_path p) = dirnameChars p := by
  refine ⟨?_, rfl, dirnameChars_output_path p⟩
  obtain ⟨o, r, w⟩ := env
  simp only at ho hr
  subst ho
  subst hr
  simp only [extract_first_frame]
  cases w <;> rfl

/-- Witness for C7: a healthy video at `/videos/a.mp4` leads to a write
attempted at `/videos/a_first_frame.png`, in the same directory. -/
theorem output_path_same_directory_fixed_suffix_witness :
    capOpens.openResult = Except.ok true ∧
      capOpens.readResult = Except.ok (true, 0) ∧
      ((extract_first_frame capOpens "/videos/a.mp4").attemptedWrite
          = some (output_path "/videos/a.mp4") ∧
        output_path "/videos/a.mp4" = (splitext "/videos/a.mp4").1 ++ "_first_frame.png" ∧
        dirnameChars (output_path "/videos/a.mp4") = dirnameChars "/videos/a.mp4") :=
  ⟨rfl, rfl,
    output_path_same_directory_fixed_suffix capOpens "/videos/a.mp4" 0 rfl rfl⟩

/-- C8.  The claim says every discovered candidate is processed exactly
once, in order, regardless of individual failures, followed by the final
summary.  Evaluating the code on a directory with two candidates where the
first one's `cv2.VideoCapture` constructor raises: discovery finds 2
candidates, but the escaping `UnboundLocalError` aborts the loop, so only
the first candidate is ever handed to `extract_first_frame` and no summary
is emitted. -/
theorem aborted_run_skips_candidates_and_summary :
    (get_video_files envRaise.directory (listdir envRaise.entries)).length = 2 ∧
      (mainRun envRaise).invoked = ["/videos/a.mp4"] ∧
      (mainRun envRaise).counts = none :=
  ⟨rfl, rfl, rfl⟩

/-- C9, counterexample.  The claim says a run performs no network access
and keeps no persisted state, i.e. its effects satisfy
`effects.any isPipInstallEffect = false`.  Evaluating the code on a
realistic machine where both real modules (`cv2`, `tqdm`) are importable:
`check_dependencies` tries `__import__("opencv_python")` — the replace-dash
module name, which is never importable since the package's module is
`cv2` — so the run invokes `pip install opencv-python`, a subprocess that
reaches the network and installs into the Python environment, persisting
across runs. -/
theorem run_performs_pip_install :
    (mainRun envOk).effects.any isPipInstallEffect = true := rfl

/-- C9, amended.  Apart from the `pip install` invocations of
`check_dependencies` (one per required package whose dash-to-underscore
module name is not importable), every effect of a run is either an attempt
to open a discovered candidate of the target directory for decoding, or a
PNG write at the output path derived from such a candidate. -/
theorem effects_confined_modulo_pip (env : RunEnv) (e : Effect)
    (he : e ∈ (mainRun env).effects) :
    (∃ pkg, pkg ∈ required_packages ∧ e = Effect.pipInstall pkg) ∨
      (∃ p, p ∈ get_video_files env.directory (listdir env.entries) ∧
        (e = Effect.openVideo p ∨ e = Effect.writePng (output_path p))) := by
  simp only [mainRun] at he
  split at he
  · exact Or.inl (check_dependencies_effects env.importable e he)
  · split at he
    · exact Or.inl (check_dependencies_effects env.importable e he)
    · split at he
      · rcases List.mem_append.mp he with h1 | h2
        · exact Or.inl (check_dependencies_effects env.importable e h1)
        · obtain ⟨p, hp, hor⟩ := processLoop_effects env.cvOf _ e h2
          exact Or.inr ⟨p, hp, hor⟩
      · rcases List.mem_append.mp he with h1 | h2
        · exact Or.inl (check_dependencies_effects env.importable e h1)
        · obtain ⟨p, hp, hor⟩ := processLoop_effects env.cvOf _ e h2
          exact Or.inr ⟨p, hp, hor⟩

/-- Witness for the amended C9: the `openVideo` effect of the healthy run
is accounted for as the opening of a discovered candidate. -/
theorem effects_confined_modulo_pip_witness :
    Effect.openVideo "/videos/a.mp4" ∈ (mainRun envOk).effects ∧
      ((∃ pkg, pkg ∈ required_packages ∧
          Effect.openVideo "/videos/a.mp4" = Effect.pipInstall pkg) ∨
        (∃ p, p ∈ get_video_files envOk.directory (listdir envOk.entries) ∧
          (Effect.openVideo "/videos/a.mp4" = Effect.openVideo p ∨
            Effect.openVideo "/videos/a.mp4" = Effect.writePng (output_path p)))) :=
  ⟨by decide,
    effects_confined_modulo_pip envOk (Effect.openVideo "/videos/a.mp4") (by decide)⟩

/-- C10.  Discovery applies only the lexical suffix test to each listed
name: the entry's kind is never consulted (src/frame-extractor.py lines
86-88 iterate `os.listdir` names with no `os.path.isfile` check), so any
directory entry — including a subdirectory or other non-file entry — whose
lowercased name ends with a recognized video extension is returned as a
candidate. -/
theorem suffix_matching_directory_entry_returned (directory : String)
    (entries : List DirEntry) (e : DirEntry) (he : e ∈ entries)
    (hkind : e.isFile = false) (hm : matchesVideoExt e.name = true) :
    joinPath directory e.name ∈ get_video_files directory (listdir entries) := by
  simp only [get_video_files]
  refine List.mem_map.mpr ⟨e.name, ?_, rfl⟩
  refine List.mem_filter.mpr ⟨?_, hm⟩
  exact List.mem_map.mpr ⟨e, he, rfl⟩

/-- Witness for C10: a subdirectory named `Trailers.mp4` is returned as a
candidate. -/
theorem suffix_matching_directory_entry_returned_witness :
    ({ name := "Trailers.mp4", isFile := false } : DirEntry)
        ∈ [({ name := "Trailers.mp4", isFile := false } : DirEntry)] ∧
      ({ name := "Trailers.mp4", isFile := false } : DirEntry).isFile = false ∧
      matchesVideoExt "Trailers.mp4" = true ∧
      joinPath "/videos" "Trailers.mp4"
        ∈ get_video_files "/videos"
            (listdir [{ name := "Trailers.mp4", isFile := false }]) :=
  ⟨by decide, rfl, by decide,
    suffix_matching_directory_entry_returned "/videos"
      [{ name := "Trailers.mp4", isFile := false }]
      { name := "Trailers.mp4", isFile := false } (by decide) rfl (by decide)⟩
